import Mathlib

/-!
Verification development for the desktop stack orchestrator
(docker module, Electron main-process IPC handlers, and the setup page
container-start loop). Effectful primitives (subprocess execution, port
binding probes, JSON parsing, timers) are modelled as explicit "world"
records supplying their results; the control flow of each source function
is translated faithfully on top of those records.
-/

namespace TrhDesktop

/-! ### JavaScript string primitives

The source is TypeScript; these model the JS string methods it uses
(`trim`, newline `split`, `toLowerCase`, `includes`, `parseInt`). -/

/-- Characters treated as whitespace by JavaScript `\s` and `trim`
(restricted to the common code points; exotic Unicode spaces omitted). -/
def jsWhitespace (c : Char) : Bool :=
  c = ' ' || c = '\t' || c = '\n' || c = '\r' || c = '\x0b' || c = '\x0c' || c = ' '

/-- Model of `String.prototype.trim`. -/
def jsTrim (s : String) : String :=
  ⟨((s.data.dropWhile jsWhitespace).reverse.dropWhile jsWhitespace).reverse⟩

/-- Split a character list at newline characters (every newline is a separator,
consecutive separators yield empty pieces, as the JS split method does). -/
def splitNlAux : List Char → List (List Char)
  | [] => [[]]
  | c :: rest =>
    if c = '\n' then [] :: splitNlAux rest
    else
      match splitNlAux rest with
      | h :: t => (c :: h) :: t
      | [] => [[c]]

/-- Model of `String.prototype.split` at newlines. -/
def splitNewlines (s : String) : List String :=
  (splitNlAux s.data).map (fun l => ⟨l⟩)

/-- Model of `String.prototype.toLowerCase` (ASCII range). -/
def jsToLower (s : String) : String :=
  ⟨s.data.map Char.toLower⟩

/-- Whether the first list starts the second list. -/
def leadsWith : List Char → List Char → Bool
  | [], _ => true
  | _ :: _, [] => false
  | a :: as, b :: bs => a = b && leadsWith as bs

/-- Whether `pat` occurs contiguously inside the second list. -/
def occursIn (pat : List Char) : List Char → Bool
  | [] => pat.isEmpty
  | c :: rest => leadsWith pat (c :: rest) || occursIn pat rest

/-- Model of `String.prototype.includes`. -/
def jsIncludes (s pat : String) : Bool :=
  occursIn pat.data s.data

/-- Hexadecimal digit value of a character, if any. -/
def digitValHex (c : Char) : Option Nat :=
  if '0' ≤ c ∧ c ≤ '9' then some (c.toNat - '0'.toNat)
  else if 'a' ≤ c ∧ c ≤ 'f' then some (c.toNat - 'a'.toNat + 10)
  else if 'A' ≤ c ∧ c ≤ 'F' then some (c.toNat - 'A'.toNat + 10)
  else none

/-- Digit values of the longest digit run (in the given base) starting the list. -/
def takeDigits (base : Nat) : List Char → List Nat
  | c :: rest =>
    match digitValHex c with
    | some d => if d < base then d :: takeDigits base rest else []
    | none => []
  | [] => []

/-- Model of JS `parseInt(s)` with no radix argument: skip leading whitespace,
optional sign, base-16 on a `0x`/`0X` leader else base 10, longest digit run,
`none` standing for `NaN`. -/
def parseIntJS (s : String) : Option Int :=
  let l := s.data.dropWhile jsWhitespace
  let signedTail : Bool × List Char :=
    match l with
    | '-' :: rest => (true, rest)
    | '+' :: rest => (false, rest)
    | _ => (false, l)
  let basedTail : Nat × List Char :=
    match signedTail.2 with
    | '0' :: 'x' :: rest => (16, rest)
    | '0' :: 'X' :: rest => (16, rest)
    | _ => (10, signedTail.2)
  let ds := takeDigits basedTail.1 basedTail.2
  if ds.isEmpty then none
  else
    let n := ds.foldl (fun acc d => acc * basedTail.1 + d) 0
    some (if signedTail.1 then -(n : Int) else (n : Int))

/-! ### Port probing (docker module)

`isPortAvailable`, `execPromise("lsof -i :<port> -t -sTCP:LISTEN")` and
`execPromise("ps -p <pid> -o comm=")` are effectful; a `PortWorld` supplies
their results (`none` models a rejected promise). `execPromise` resolves the
trimmed stdout, which is what the oracles are taken to return. -/

/-- The three local ports the stack needs (UI 3000, database 5433, API 8000). -/
def REQUIRED_PORTS : List Nat := [3000, 5433, 8000]

/-- Environment of the port functions: results of the effectful primitives. -/
structure PortWorld where
  portAvailable : Nat → Bool
  lsofListen : Nat → Option String
  psComm : Int → Option String

/-- Result shape of `checkRequiredPorts`. -/
structure PortCheck where
  available : Bool
  blockedPorts : List Nat
deriving DecidableEq, Repr

/-- Model of `checkRequiredPorts`: collect the required ports that fail the
bind probe; `available` is `blockedPorts.length === 0`. -/
def checkRequiredPorts (w : PortWorld) : PortCheck :=
  let blockedPorts := REQUIRED_PORTS.filter (fun port => !w.portAvailable port)
  ⟨blockedPorts.length == 0, blockedPorts⟩

/-- One reported port conflict. -/
structure PortConflict where
  port : Nat
  pid : Int
  processName : String
deriving DecidableEq, Repr

/-- Shared pid pipeline of `getPortConflicts` and `killPortProcesses`:
`pidOutput.split(newline).map(p => parseInt(p.trim())).filter(p => !isNaN(p) && p > 0)`. -/
def parsePids (pidOutput : String) : List Int :=
  (((splitNewlines pidOutput).map (fun p => parseIntJS (jsTrim p))).filterMap id).filter
    (fun p => decide (0 < p))

/-- Display name resolved for a pid: the trimmed `ps -o comm=` output, or the
placeholder `"unknown"` when that lookup fails. -/
def procNameOf (w : PortWorld) (pid : Int) : String :=
  match w.psComm pid with
  | some name => jsTrim name
  | none => "unknown"

/-- Conflict entries contributed by one blocked port: when the `lsof` pid
lookup fails the port contributes nothing (the source only logs
"Could not identify process on port ..."); otherwise one entry per parsed pid. -/
def conflictsForPort (w : PortWorld) (port : Nat) : List PortConflict :=
  match w.lsofListen port with
  | none => []
  | some pidOutput => (parsePids pidOutput).map (fun pid => ⟨port, pid, procNameOf w pid⟩)

/-- Result shape of `getPortConflicts`. -/
structure PortConflictResult where
  available : Bool
  conflicts : List PortConflict
deriving DecidableEq, Repr

/-- Model of `getPortConflicts`. -/
def getPortConflicts (w : PortWorld) : PortConflictResult :=
  let portCheck := checkRequiredPorts w
  if portCheck.available then ⟨true, []⟩
  else ⟨false, portCheck.blockedPorts.flatMap (conflictsForPort w)⟩

/-! ### Freeing ports (`killPortProcesses`)

The function sends `process.kill(pid, "SIGTERM")` to every pid found via
`lsof` (kill failures are caught and only logged, so the attempt list is
unaffected), waits 1500 ms, then re-probes the given ports in order and
throws at the first one still bound. `availableAfterWait` supplies the
re-probe results observed after the settle interval. -/

/-- Environment of `killPortProcesses`. -/
structure KillWorld where
  lsofListen : Nat → Option String
  availableAfterWait : Nat → Bool

/-- Observable trace of one `killPortProcesses` call: each signal attempt
as a `(pid, signal name)` pair, the settle wait, and the outcome. -/
structure KillTrace where
  signals : List (Int × String)
  waitedMs : Nat
  result : Except String Unit
deriving Repr

/-- Signal attempts made by `killPortProcesses` for the given ports. -/
def killSignals (w : KillWorld) (ports : List Nat) : List (Int × String) :=
  ports.flatMap (fun port =>
    match w.lsofListen port with
    | none => []
    | some pidOutput => (parsePids pidOutput).map (fun pid => (pid, "SIGTERM")))

/-- Model of `killPortProcesses`. -/
def killPortProcesses (w : KillWorld) (ports : List Nat) : KillTrace :=
  let signals := killSignals w ports
  let result : Except String Unit :=
    match ports.find? (fun port => !w.availableAfterWait port) with
    | some port =>
      .error ("Port " ++ toString port ++
        " is still in use after killing processes. You may need to free it manually.")
    | none => .ok ()
  ⟨signals, 1500, result⟩

/-! ### Stack status (`getDockerStatus`)

`isDockerInstalled` / `isDockerRunning` and the `compose ps --format json`
subprocess are effectful; `StatusWorld` supplies their results. `psExec`
is the trimmed stdout of the ps query or the rejection message (a throw of
`getComposePath` lands there too, as both happen inside the same `try`).
`jsonParse` models `JSON.parse` on one line, `none` standing for a throw or
a falsy parse result (both are mapped to `null` / dropped by the source). -/

/-- Status record returned by `getDockerStatus`. -/
structure DockerStatus where
  installed : Bool
  running : Bool
  containersUp : Bool
  healthy : Bool
  error : Option String
deriving DecidableEq, Repr

/-- Fields of one parsed compose-ps JSON record that the source reads;
`none` models an absent field. -/
structure ContainerRec where
  State : Option String
  Health : Option String
deriving DecidableEq, Repr

/-- Environment of `getDockerStatus`. -/
structure StatusWorld where
  installed : Bool
  running : Bool
  psExec : Except String String
  jsonParse : String → Option ContainerRec

/-- Condition `c.State === "running"` on a parsed record. -/
def stateIsRunning (c : ContainerRec) : Bool :=
  c.State == some "running"

/-- Condition `!c.Health || c.Health === "healthy"` on a parsed record
(an absent or empty health field is falsy, hence passes). -/
def healthOk (c : ContainerRec) : Bool :=
  match c.Health with
  | none => true
  | some h => h == "" || h == "healthy"

/-- The record list built by `getDockerStatus`:
`psOutput.split(newline).filter(Boolean).map(JSON.parse-or-null).filter(Boolean)`. -/
def parsedContainers (psOutput : String) (jsonParse : String → Option ContainerRec) :
    List ContainerRec :=
  (((splitNewlines psOutput).filter (fun l => l != "")).map jsonParse).filterMap id

/-- Model of `getDockerStatus`. -/
def getDockerStatus (w : StatusWorld) : DockerStatus :=
  if !w.installed then ⟨false, false, false, false, none⟩
  else if !w.running then ⟨true, false, false, false, none⟩
  else
    match w.psExec with
    | .error e => ⟨true, true, false, false, some e⟩
    | .ok psOutput =>
      if psOutput == "" then ⟨true, true, false, false, none⟩
      else
        let containers := parsedContainers psOutput w.jsonParse
        let allUp := decide (containers.length ≥ 3) && containers.all stateIsRunning
        let allHealthy := containers.all healthOk
        ⟨true, true, allUp, allUp && allHealthy, none⟩

/-! ### Credential validation and container start/stop -/

/-- The optional admin configuration passed to `startContainers`. -/
structure ContainerConfig where
  adminEmail : Option String
  adminPassword : Option String
deriving DecidableEq, Repr

/-- Validated credentials returned by `validateCredentials`. -/
structure Credentials where
  email : Option String
  password : Option String
deriving DecidableEq, Repr

/-- Model of the regex test `/^[^\s@]+@[^\s@]+\.[^\s@]+$/.test(email)`:
the string splits as `a@b` with `a` a nonempty run of non-space non-at
characters and `b` matching `[^\s@]+\.[^\s@]+`, i.e. `b` is such a run
containing a dot that is neither its first nor its last character. -/
def emailRegexTest (s : String) : Bool :=
  let l := s.data
  let a := l.takeWhile (fun c => c ≠ '@')
  let b := (l.dropWhile (fun c => c ≠ '@')).tail
  l.count '@' == 1 &&
    (!a.isEmpty && a.all (fun c => !jsWhitespace c) &&
      b.all (fun c => !jsWhitespace c) && ((b.drop 1).dropLast.contains '.'))

/-- The email block of `validateCredentials`: a `none` or empty-string value
is falsy in JS, so the whole block is skipped and the field stays unset. -/
def validateEmailField (v : Option String) : Except String (Option String) :=
  match v with
  | some e =>
    if e == "" then .ok none
    else
      let email := jsTrim e
      if email.length > 254 then .error "Email address too long"
      else if !emailRegexTest email then .error "Invalid email format"
      else .ok (some email)
  | none => .ok none

/-- The password block of `validateCredentials`; same falsy skip. -/
def validatePasswordField (v : Option String) : Except String (Option String) :=
  match v with
  | some p =>
    if p == "" then .ok none
    else if p.length > 128 then .error "Password too long"
    else if p.length < 8 then .error "Password must be at least 8 characters"
    else .ok (some p)
  | none => .ok none

/-- Model of `validateCredentials`: the email block runs first (its throw
wins), then the password block. -/
def validateCredentials (config : Option ContainerConfig) : Except String Credentials := do
  let email? ← validateEmailField (config.bind (fun cfg => cfg.adminEmail))
  let password? ← validatePasswordField (config.bind (fun cfg => cfg.adminPassword))
  return ⟨email?, password?⟩

/-- Terminal event of the `compose up` subprocess, as observed by the
promise: the `close` handler with its exit code and the stderr captured so
far, the `error` handler, or the 120 s timer firing first. -/
inductive UpEvent
  | closed (code : Option Int) (stderrOutput : String)
  | errored (msg : String)
  | timedOut
deriving DecidableEq, Repr

/-- Text interpolated for an exit code (`null` for a signal exit). -/
def codeText (code : Option Int) : String :=
  match code with
  | none => "null"
  | some c => toString c

/-- Error classification done in the `close` handler of `compose up`. -/
def classifyUpError (code : Option Int) (stderrOutput : String) : String :=
  if jsIncludes stderrOutput "port is already allocated" then
    "Port conflict detected. Another process is using required ports."
  else if jsIncludes stderrOutput "No such image" then
    "Required Docker images not found. Please pull images first."
  else if jsIncludes stderrOutput "Cannot connect" then
    "Cannot connect to Docker daemon. Is Docker Desktop running?"
  else
    "Docker compose up failed with code " ++ codeText code ++ "."

/-- Observable outcome of one `startContainers` call: the settled promise,
whether the `compose up` subprocess was spawned at all, and the
`ADMIN_EMAIL` / `ADMIN_PASSWORD` entries added to its environment. -/
structure StartTrace where
  result : Except String Unit
  spawned : Bool
  envAdminEmail : Option String
  envAdminPassword : Option String
deriving Repr

/-- Model of `startContainers`: compose-file check, then credential
validation, then the spawn whose settling event is supplied by `ev`.
`composeOk` is whether `getComposePath` finds the compose file. -/
def startContainers (composeOk : Bool) (config : Option ContainerConfig) (ev : UpEvent) :
    StartTrace :=
  if !composeOk then
    ⟨.error "Docker Compose file not found", false, none, none⟩
  else
    match validateCredentials config with
    | .error msg => ⟨.error msg, false, none, none⟩
    | .ok credentials =>
      let envAdminEmail := match credentials.email with
        | some e => if e == "" then none else some e
        | none => none
      let envAdminPassword := match credentials.password with
        | some p => if p == "" then none else some p
        | none => none
      let result : Except String Unit :=
        match ev with
        | .timedOut => .error "Container startup timed out. Docker may be unresponsive."
        | .errored msg => .error msg
        | .closed code stderrOutput =>
          if code == some 0 then .ok ()
          else .error (classifyUpError code stderrOutput)
      ⟨result, true, envAdminEmail, envAdminPassword⟩

/-- Terminal event of the `compose down` subprocess. -/
inductive DownEvent
  | closed (code : Option Int)
  | errored (msg : String)
  | timedOut
deriving DecidableEq, Repr

/-- Model of `stopContainers`: the `close` handler resolves on exit code 0
or `null` (signal exit) and rejects otherwise; the `error` handler and the
120 s timer both reject. -/
def stopContainers (composeOk : Bool) (ev : DownEvent) : Except String Unit :=
  if !composeOk then .error "Docker Compose file not found"
  else
    match ev with
    | .timedOut => .error "Container shutdown timed out. Try force-stopping Docker containers manually."
    | .errored msg => .error msg
    | .closed code =>
      if code == some 0 || code == none then .ok ()
      else .error ("Docker compose down failed with code " ++ codeText code)

/-! ### Health polling (`waitForHealthy`)

The loop checks the elapsed time against `timeoutMs` at the top of each
iteration, performs one status query, returns `true` on a healthy status,
and otherwise sleeps 3000 ms and repeats. `statusAt i` is the status world
observed by the `i`-th query and `queryMs i` the wall-clock time the `i`-th
query consumes; the elapsed clock grows by the query time plus the sleep.
The `onStatus` progress messages do not affect the result and are omitted. -/

/-- Polling interval of the health loop, in ms. -/
def HEALTH_CHECK_INTERVAL : Nat := 3000

/-- Environment of `waitForHealthy`. -/
structure HealthWorld where
  statusAt : Nat → StatusWorld
  queryMs : Nat → Nat

/-- Model of `waitForHealthy` (always terminates with a Bool: the source
never throws, it only returns `true` or falls out of the loop with `false`). -/
def waitForHealthy (w : HealthWorld) (timeoutMs : Nat) : Bool :=
  go 0 0
where
  go (elapsed i : Nat) : Bool :=
    if h : elapsed < timeoutMs then
      let status := getDockerStatus (w.statusAt i)
      if status.healthy then true
      else go (elapsed + w.queryMs i + HEALTH_CHECK_INTERVAL) (i + 1)
    else false
  termination_by timeoutMs - elapsed
  decreasing_by simp_wf; simp only [HEALTH_CHECK_INTERVAL]; omega

/-- Elapsed clock value at the top of the `i`-th loop iteration. -/
def elapsedBefore (w : HealthWorld) : Nat → Nat
  | 0 => 0
  | i + 1 => elapsedBefore w i + w.queryMs i + HEALTH_CHECK_INTERVAL

/-- Whether the `i`-th status query reports healthy. -/
def healthyAt (w : HealthWorld) (i : Nat) : Bool :=
  (getDockerStatus (w.statusAt i)).healthy

/-- The `i`-th status query is actually performed (still inside the timeout
window, and no earlier query already returned healthy). -/
def queryPerformed (w : HealthWorld) (timeoutMs i : Nat) : Prop :=
  elapsedBefore w i < timeoutMs ∧ ∀ j < i, healthyAt w j = false

/-! ### Main-process single-flight guard (the docker:start IPC handler)

The handler checks the module-level `dockerOperationInProgress` flag, throws
an in-progress error without touching anything when it is set, and otherwise
sets it, awaits `startContainers`, and clears it in a `finally`. The state
of the containers side is abstracted to a type `σ` transformed by the
supplied `runStart`. -/

/-- Main-process state relevant to the guard: the single-flight flag plus the
abstracted state of whatever operation is in flight. -/
structure MainState (σ : Type) where
  dockerOperationInProgress : Bool
  opState : σ

/-- Model of the `docker:start` IPC handler. -/
def dockerStartHandler {σ : Type} (s : MainState σ)
    (runStart : σ → Except String Unit × σ) : Except String Unit × MainState σ :=
  if s.dockerOperationInProgress then
    (.error "Docker operation already in progress", s)
  else
    let busy : MainState σ := { s with dockerOperationInProgress := true }
    let r := runStart busy.opState
    (r.1, { busy with opState := r.2, dockerOperationInProgress := false })

/-! ### Setup page container-start loop (`runSetup`, step 3)

`resolvePortConflicts` and `api.docker.start` are awaited inside the same
`try`; a throw from either is caught and retried only when
`isPortError(errorMsg)` holds and the attempt budget (< 2, zero-based) is
left. `resolveAt i` / `startAt i` supply the outcome of the calls made on
attempt `i`; `err.message || "Could not start containers."` is modelled by
substituting the fallback for an empty message. -/

/-- Outcome of one `resolvePortConflicts()` call: returned a Bool, or threw
(e.g. from `killPortProcesses`). -/
inductive ResolveOutcome
  | ok (portsOk : Bool)
  | exn (msg : String)
deriving DecidableEq, Repr

/-- Outcome of one `api.docker.start` call. -/
inductive StartCallOutcome
  | ok
  | exn (msg : String)
deriving DecidableEq, Repr

/-- Environment of the container-start loop, indexed by attempt number. -/
structure SetupWorld where
  resolveAt : Nat → ResolveOutcome
  startAt : Nat → StartCallOutcome

/-- Terminal outcome of the loop. -/
inductive StartLoopResult
  | started
  | portCancelFailed
  | startFailed (msg : String)
  | exhausted
deriving DecidableEq, Repr

/-- Observable trace of the loop: how many times port resolution ran, how
many `api.docker.start` attempts were made, and the outcome. -/
structure StartLoopTrace where
  resolveRuns : Nat
  startAttempts : Nat
  result : StartLoopResult
deriving DecidableEq, Repr

/-- Model of the `isPortError` predicate of the setup page. -/
def isPortError (msg : String) : Bool :=
  jsIncludes (jsToLower msg) "port" || jsIncludes (jsToLower msg) "address already in use"

/-- The `err.message || "Could not start containers."` fallback. -/
def errorMsgOf (msg : String) : String :=
  if msg == "" then "Could not start containers." else msg

/-- Body of `for (let attempt = 0; attempt < 3; attempt++)` in `runSetup`. -/
def containerStartLoopGo (w : SetupWorld) (attempt resolveRuns startAttempts : Nat) :
    StartLoopTrace :=
  if _h : attempt < 3 then
    match w.resolveAt attempt with
    | .exn msg =>
      let errorMsg := errorMsgOf msg
      if isPortError errorMsg && decide (attempt < 2) then
        containerStartLoopGo w (attempt + 1) (resolveRuns + 1) startAttempts
      else ⟨resolveRuns + 1, startAttempts, .startFailed errorMsg⟩
    | .ok false => ⟨resolveRuns + 1, startAttempts, .portCancelFailed⟩
    | .ok true =>
      match w.startAt attempt with
      | .ok => ⟨resolveRuns + 1, startAttempts + 1, .started⟩
      | .exn msg =>
        let errorMsg := errorMsgOf msg
        if isPortError errorMsg && decide (attempt < 2) then
          containerStartLoopGo w (attempt + 1) (resolveRuns + 1) (startAttempts + 1)
        else ⟨resolveRuns + 1, startAttempts + 1, .startFailed errorMsg⟩
  else ⟨resolveRuns, startAttempts, .exhausted⟩
termination_by 3 - attempt
decreasing_by all_goals (simp_wf; omega)

/-- The container-start step of `runSetup`. -/
def containerStartLoop (w : SetupWorld) : StartLoopTrace :=
  containerStartLoopGo w 0 0 0

/-! ### Concrete example worlds used by counterexamples and witnesses -/

/-- Port world where only port 3000 is bound and the lsof lookup fails. -/
def w1c : PortWorld :=
  ⟨fun p => p != 3000, fun _ => none, fun _ => none⟩

/-- Port world where only port 3000 is bound, lsof finds pid 123, and the
ps name lookup fails. -/
def w1w : PortWorld :=
  ⟨fun p => p != 3000, fun p => if p == 3000 then some "123" else none, fun _ => none⟩

/-- Status world with three running containers and no health probes. -/
def wHealthy : StatusWorld :=
  ⟨true, true, .ok "a\nb\nc", fun _ => some ⟨some "running", none⟩⟩

/-- Health world whose every status query sees `wHealthy` and takes 50 ms. -/
def wHealth2 : HealthWorld :=
  ⟨fun _ => wHealthy, fun _ => 50⟩

/-- Status world whose single ps output line fails to parse as JSON. -/
def w6c : StatusWorld :=
  ⟨true, true, .ok "not json", fun _ => none⟩

/-- Setup world: port resolution always succeeds, every start attempt throws
a port-related error. -/
def wSetupA : SetupWorld :=
  ⟨fun _ => .ok true, fun _ => .exn "port is already allocated"⟩

/-- Setup world: port resolution succeeds, the first start attempt throws a
non-port error. -/
def wSetupB : SetupWorld :=
  ⟨fun _ => .ok true, fun _ => .exn "No such image"⟩

/-- Kill world: lsof finds pid 42 on port 3000, every port is free after the
settle wait. -/
def w8w : KillWorld :=
  ⟨fun p => if p == 3000 then some "42" else none, fun _ => true⟩

/-! ## Theorems -/

/-! ### Helper lemmas -/

/-- The length-and-all test of `getDockerStatus` phrased through a filter count. -/
theorem length_all_filter_iff {α : Type} (L : List α) (p : α → Bool) :
    (decide (L.length ≥ 3) && L.all p) = true ↔
      (3 ≤ (L.filter p).length ∧ ∀ c ∈ L, p c = true) := by
  simp only [Bool.and_eq_true, decide_eq_true_eq, List.all_eq_true]
  constructor
  · rintro ⟨h3, hall⟩
    rw [List.filter_eq_self.mpr hall]
    exact ⟨h3, hall⟩
  · rintro ⟨h3, hall⟩
    exact ⟨le_trans h3 (List.length_filter_le p L), hall⟩

/-- The elapsed clock of the health loop is monotone in the iteration index. -/
theorem elapsedBefore_mono (w : HealthWorld) {i k : Nat} (h : i ≤ k) :
    elapsedBefore w i ≤ elapsedBefore w k := by
  induction k with
  | zero =>
    have : i = 0 := Nat.le_zero.mp h
    simp [this]
  | succ n ihn =>
    rcases Nat.lt_or_ge i (n + 1) with h1 | h2
    · have ha := ihn (Nat.lt_succ_iff.mp h1)
      have hb : elapsedBefore w (n + 1) = elapsedBefore w n + w.queryMs n +
          HEALTH_CHECK_INTERVAL := rfl
      omega
    · have : i = n + 1 := Nat.le_antisymm h h2
      simp [this]

/-- Characterization of the inner loop of `waitForHealthy`, entered at the
top of iteration `i` with the matching elapsed clock. -/
theorem waitForHealthy_go_spec (w : HealthWorld) (timeoutMs : Nat) :
    ∀ fuel i, timeoutMs - elapsedBefore w i ≤ fuel →
      (waitForHealthy.go w timeoutMs (elapsedBefore w i) i = true ↔
        ∃ k, i ≤ k ∧ elapsedBefore w k < timeoutMs ∧
          (∀ j, i ≤ j → j < k → healthyAt w j = false) ∧ healthyAt w k = true) := by
  intro fuel
  induction fuel with
  | zero =>
    intro i hle
    have hto : ¬ elapsedBefore w i < timeoutMs := by omega
    rw [waitForHealthy.go, dif_neg hto]
    refine iff_of_false (by simp) ?_
    rintro ⟨k, hik, hk, _, _⟩
    exact absurd (lt_of_le_of_lt (elapsedBefore_mono w hik) hk) hto
  | succ n ih =>
    intro i hle
    by_cases hlt : elapsedBefore w i < timeoutMs
    · rw [waitForHealthy.go, dif_pos hlt]
      by_cases hh : healthyAt w i = true
      · have hh2 : (getDockerStatus (w.statusAt i)).healthy = true := hh
        simp only [hh2, if_true, true_iff]
        exact ⟨i, le_refl i, hlt, fun j h1 h2 => absurd (lt_of_le_of_lt h1 h2) (lt_irrefl i),
          hh⟩
      · have hh2 : (getDockerStatus (w.statusAt i)).healthy = false :=
          Bool.not_eq_true _ ▸ Bool.eq_false_iff.mpr (fun hc => hh hc)
        have hhf : healthyAt w i = false := hh2
        simp only [hh2, if_false, Bool.false_eq_true]
        have hstep : elapsedBefore w i + w.queryMs i + HEALTH_CHECK_INTERVAL =
            elapsedBefore w (i + 1) := rfl
        rw [hstep]
        have hint : HEALTH_CHECK_INTERVAL = 3000 := rfl
        have hrec : elapsedBefore w (i + 1) = elapsedBefore w i + w.queryMs i +
            HEALTH_CHECK_INTERVAL := rfl
        rw [ih (i + 1) (by omega)]
        constructor
        · rintro ⟨k, hik, hk, hmid, hkh⟩
          refine ⟨k, by omega, hk, fun j hj1 hj2 => ?_, hkh⟩
          rcases Nat.eq_or_lt_of_le hj1 with he | hl
          · rw [← he]; exact hhf
          · exact hmid j hl hj2
        · rintro ⟨k, hik, hk, hmid, hkh⟩
          have hne : i ≠ k := by
            intro he
            rw [he] at hhf
            rw [hkh] at hhf
            exact Bool.true_eq_false.mp hhf
          exact ⟨k, by omega, hk, fun j hj1 hj2 => hmid j (by omega) hj2, hkh⟩
    · rw [waitForHealthy.go, dif_neg hlt]
      refine iff_of_false (by simp) ?_
      rintro ⟨k, hik, hk, _, _⟩
      exact absurd (lt_of_le_of_lt (elapsedBefore_mono w hik) hk) hlt

/-! ### C1 — port conflicts reported for blocked ports -/

/-- C1 counterexample: port 3000 is reported blocked by `checkRequiredPorts`,
the pid lookup for it fails, and `getPortConflicts` returns no conflict entry
at all for it — the conflict is dropped (only a log line is emitted), not
reported with a placeholder process name as the claim states. -/
theorem C1_counterexample :
    3000 ∈ (checkRequiredPorts w1c).blockedPorts ∧
    (checkRequiredPorts w1c).available = false ∧
    (getPortConflicts w1c).conflicts = [] := by
  decide

/-- C1 amended: for every blocked required port whose lsof pid lookup
succeeds, each parsed pid yields a conflict entry for that port, with the
trimmed ps name or the placeholder "unknown" when the name lookup fails;
a blocked port whose pid lookup fails yields no entry (it is only logged),
though `available` is still reported false. -/
theorem C1_amended_conflict_reporting (w : PortWorld) (port : Nat) (out : String) (pid : Int)
    (hblocked : port ∈ (checkRequiredPorts w).blockedPorts)
    (hlsof : w.lsofListen port = some out)
    (hpid : pid ∈ parsePids out) :
    (getPortConflicts w).available = false ∧
    (⟨port, pid, procNameOf w pid⟩ : PortConflict) ∈ (getPortConflicts w).conflicts := by
  have havail : (checkRequiredPorts w).available = false := by
    have hne : (checkRequiredPorts w).blockedPorts ≠ [] := List.ne_nil_of_mem hblocked
    simp only [checkRequiredPorts] at hne ⊢
    simpa using fun hz => hne (List.length_eq_zero.mp hz)
  have hmem : (⟨port, pid, procNameOf w pid⟩ : PortConflict) ∈
      (checkRequiredPorts w).blockedPorts.flatMap (conflictsForPort w) := by
    refine List.mem_flatMap.mpr ⟨port, hblocked, ?_⟩
    simp only [conflictsForPort, hlsof]
    exact List.mem_map.mpr ⟨pid, hpid, rfl⟩
  constructor
  · simp only [getPortConflicts, havail, if_false, Bool.false_eq_true]
  · simp only [getPortConflicts, havail, if_false, Bool.false_eq_true]
    exact hmem

/-- C1 witness: concrete blocked port 3000 with pid 123 and a failing name
lookup is reported with the "unknown" placeholder. -/
theorem C1_amended_witness :
    (getPortConflicts w1w).available = false ∧
    (⟨3000, 123, "unknown"⟩ : PortConflict) ∈ (getPortConflicts w1w).conflicts := by
  have h := C1_amended_conflict_reporting w1w 3000 "123" 123 (by decide) (by decide) (by decide)
  exact h

/-! ### C2 — waitForHealthy returns true iff a query inside the window is healthy -/

/-- C2: `waitForHealthy` returns true if and only if some status query it
performs within the timeout window reports healthy; otherwise (in particular
on timeout) it returns false — it is a total Bool-valued function, so it
never throws, for every timeout value and every sequence of status results
and query durations. -/
theorem C2_wait_healthy_iff (w : HealthWorld) (timeoutMs : Nat) :
    waitForHealthy w timeoutMs = true ↔
      ∃ i, queryPerformed w timeoutMs i ∧ healthyAt w i = true := by
  have h := waitForHealthy_go_spec w timeoutMs (timeoutMs - elapsedBefore w 0) 0 (le_refl _)
  have h0 : elapsedBefore w 0 = 0 := rfl
  rw [h0] at h
  unfold waitForHealthy
  rw [h]
  constructor
  · rintro ⟨k, _, hk, hmid, hkh⟩
    exact ⟨k, ⟨hk, fun j hj => hmid j (Nat.zero_le j) hj⟩, hkh⟩
  · rintro ⟨i, ⟨hlt, hall⟩, hh⟩
    exact ⟨i, Nat.zero_le i, hlt, fun j _ hj => hall j hj, hh⟩

/-- C2 witness: with every query seeing a healthy stack and a 5000 ms
timeout, the first query is performed and the loop returns true. -/
theorem C2_wait_healthy_witness : waitForHealthy wHealth2 5000 = true :=
  (C2_wait_healthy_iff wHealth2 5000).mpr
    ⟨0, ⟨by decide, fun j hj => absurd hj (Nat.not_lt_zero j)⟩, by decide⟩

/-! ### C3 — single-flight guard on the docker:start handler -/

/-- C3: while the single-flight flag is set, the docker:start handler fails
immediately with the in-progress error and leaves the whole main-process
state (flag and operation state) unchanged; when the guarded operation does
run, the flag is clear again on every exit path (the result of `runStart`,
success or error, is returned unchanged while the finally-block clears the
flag). -/
theorem C3_single_flight {σ : Type} (s : MainState σ) (runStart : σ → Except String Unit × σ) :
    (s.dockerOperationInProgress = true →
      dockerStartHandler s runStart = (.error "Docker operation already in progress", s)) ∧
    (s.dockerOperationInProgress = false →
      (dockerStartHandler s runStart).1 = (runStart s.opState).1 ∧
      (dockerStartHandler s runStart).2.dockerOperationInProgress = false) := by
  constructor
  · intro h
    simp [dockerStartHandler, h]
  · intro h
    simp [dockerStartHandler, h]

/-- C3 witness: concrete busy state rejected unchanged, and a concrete idle
state ends with the flag cleared. -/
theorem C3_single_flight_witness :
    dockerStartHandler (⟨true, (7 : Nat)⟩ : MainState Nat) (fun n => (.ok (), n + 1)) =
      (.error "Docker operation already in progress", ⟨true, 7⟩) ∧
    (dockerStartHandler (⟨false, (7 : Nat)⟩ : MainState Nat)
        (fun n => (.ok (), n + 1))).2.dockerOperationInProgress = false :=
  ⟨(C3_single_flight ⟨true, 7⟩ (fun n => (.ok (), n + 1))).1 rfl,
    ((C3_single_flight ⟨false, 7⟩ (fun n => (.ok (), n + 1))).2 rfl).2⟩

/-! ### C4 — container-start retry policy of the setup page -/

/-- C4: if port resolution succeeds on every attempt and all three start
attempts throw port-classified errors, the loop runs port resolution exactly
3 times, makes exactly 3 start attempts and fails terminally carrying the
third port-conflict error message (no 4th attempt); a first failure that is
not port-classified is terminal immediately after a single resolution and a
single attempt. -/
theorem C4_container_start_retry :
    (∀ (w : SetupWorld) (m : Nat → String),
      (∀ i, i < 3 → w.resolveAt i = .ok true) →
      (∀ i, i < 3 → w.startAt i = .exn (m i)) →
      (∀ i, i < 3 → m i ≠ "" ∧ isPortError (m i) = true) →
      containerStartLoop w = ⟨3, 3, .startFailed (m 2)⟩) ∧
    (∀ (w : SetupWorld) (m : String),
      w.resolveAt 0 = .ok true → w.startAt 0 = .exn m → m ≠ "" → isPortError m = false →
      containerStartLoop w = ⟨1, 1, .startFailed m⟩) := by
  constructor
  · rintro w m hr hs hm
    have e0 : errorMsgOf (m 0) = m 0 := by
      simp [errorMsgOf, beq_eq_false_iff_ne.mpr (hm 0 (by omega)).1]
    have e1 : errorMsgOf (m 1) = m 1 := by
      simp [errorMsgOf, beq_eq_false_iff_ne.mpr (hm 1 (by omega)).1]
    have e2 : errorMsgOf (m 2) = m 2 := by
      simp [errorMsgOf, beq_eq_false_iff_ne.mpr (hm 2 (by omega)).1]
    unfold containerStartLoop
    rw [containerStartLoopGo, dif_pos (by omega : (0:Nat) < 3), hr 0 (by omega),
      hs 0 (by omega)]
    simp only [e0, (hm 0 (by omega)).2, Bool.true_and, decide_eq_true_eq]
    rw [if_pos (by omega : (0:Nat) < 2)]
    rw [containerStartLoopGo, dif_pos (by omega : (1:Nat) < 3), hr 1 (by omega),
      hs 1 (by omega)]
    simp only [e1, (hm 1 (by omega)).2, Bool.true_and, decide_eq_true_eq]
    rw [if_pos (by omega : (1:Nat) < 2)]
    rw [containerStartLoopGo, dif_pos (by omega : (2:Nat) < 3), hr 2 (by omega),
      hs 2 (by omega)]
    simp only [e2, (hm 2 (by omega)).2, Bool.true_and, decide_eq_true_eq]
    rw [if_neg (by omega : ¬ (2:Nat) < 2)]
  · rintro w m hr hs hne hnp
    have e0 : errorMsgOf m = m := by
      simp [errorMsgOf, beq_eq_false_iff_ne.mpr hne]
    unfold containerStartLoop
    rw [containerStartLoopGo, dif_pos (by omega : (0:Nat) < 3), hr, hs]
    simp only [e0, hnp, Bool.false_and, Bool.false_eq_true, if_false]

/-- C4 witness: three port-classified failures end at attempt 3 with the
port error; one missing-image failure is terminal immediately. -/
theorem C4_container_start_retry_witness :
    containerStartLoop wSetupA = ⟨3, 3, .startFailed "port is already allocated"⟩ ∧
    containerStartLoop wSetupB = ⟨1, 1, .startFailed "No such image"⟩ :=
  ⟨C4_container_start_retry.1 wSetupA (fun _ => "port is already allocated")
      (fun _ _ => rfl) (fun _ _ => rfl)
      (fun _ _ => ⟨show ("port is already allocated" : String) ≠ "" by decide,
        show isPortError "port is already allocated" = true by decide⟩),
    C4_container_start_retry.2 wSetupB "No such image" rfl rfl (by decide) (by decide)⟩

/-- Unfolding of the two-block structure of `validateCredentials`. -/
theorem validateCredentials_eq (config : Option ContainerConfig) :
    validateCredentials config =
      (match validateEmailField (config.bind fun cfg => cfg.adminEmail) with
      | .error msg => .error msg
      | .ok email? =>
        match validatePasswordField (config.bind fun cfg => cfg.adminPassword) with
        | .error msg => .error msg
        | .ok password? => .ok ⟨email?, password?⟩) := by
  unfold validateCredentials
  cases h1 : validateEmailField (config.bind fun cfg => cfg.adminEmail) with
  | error m => rfl
  | ok o =>
    cases h2 : validatePasswordField (config.bind fun cfg => cfg.adminPassword) with
    | error m => rfl
    | ok o2 => rfl

/-! ### C5 — credential validation in startContainers -/

/-- C5 counterexample: the empty-string password has length 0 < 8, yet
`validateCredentials` accepts it (the falsy guard skips the block) and
`startContainers` proceeds to spawn — the claim that a password of length
less than 8 is rejected before spawning fails at this input. -/
theorem C5_counterexample :
    validateCredentials (some ⟨none, some ""⟩) = .ok ⟨none, none⟩ ∧
    (startContainers true (some ⟨none, some ""⟩) (.closed (some 0) "")).result = .ok () ∧
    (startContainers true (some ⟨none, some ""⟩) (.closed (some 0) "")).spawned = true :=
  ⟨rfl, rfl, rfl⟩

/-- C5 amended: for non-empty values, an email whose trimmed form fails the
address shape or exceeds 254 characters is rejected before any subprocess is
spawned; a non-empty password of length below 8 or above 128 is likewise
rejected before spawning; a password of exactly 8 arbitrary characters is
accepted. -/
theorem C5_amended_credential_validation :
    (∀ (e : String) (pw : Option String) (ev : UpEvent), e ≠ "" →
      ((jsTrim e).length > 254 ∨ emailRegexTest (jsTrim e) = false) →
      (startContainers true (some ⟨some e, pw⟩) ev).spawned = false ∧
      ∃ msg, (startContainers true (some ⟨some e, pw⟩) ev).result = .error msg) ∧
    (∀ (em : Option String) (p : String) (ev : UpEvent), p ≠ "" →
      (p.length < 8 ∨ p.length > 128) →
      (startContainers true (some ⟨em, some p⟩) ev).spawned = false ∧
      ∃ msg, (startContainers true (some ⟨em, some p⟩) ev).result = .error msg) ∧
    (∀ p : String, p.length = 8 →
      validateCredentials (some ⟨none, some p⟩) = .ok ⟨none, some p⟩) := by
  refine ⟨?_, ?_, ?_⟩
  · rintro e pw ev he hd
    have hbe : (e == "") = false := beq_eq_false_iff_ne.mpr he
    have hval : ∃ msg, validateEmailField (some e) = .error msg := by
      by_cases h254 : (jsTrim e).length > 254
      · exact ⟨"Email address too long", by simp [validateEmailField, hbe, h254]⟩
      · rcases hd with h254b | hre
        · exact absurd h254b h254
        · exact ⟨"Invalid email format", by simp [validateEmailField, hbe, h254, hre]⟩
    rcases hval with ⟨msg, hmsg⟩
    have hvc : validateCredentials (some ⟨some e, pw⟩) = .error msg := by
      rw [validateCredentials_eq]
      simp only [Option.bind]
      rw [hmsg]
    exact ⟨by simp [startContainers, hvc], ⟨msg, by simp [startContainers, hvc]⟩⟩
  · rintro em p ev hp hlen
    have hbp : (p == "") = false := beq_eq_false_iff_ne.mpr hp
    have hpw : ∃ msg, validatePasswordField (some p) = .error msg := by
      rcases hlen with hlt | hgt
      · by_cases hg : p.length > 128
        · exact ⟨"Password too long", by simp [validatePasswordField, hbp, hg]⟩
        · exact ⟨"Password must be at least 8 characters",
            by simp [validatePasswordField, hbp, hg, hlt]⟩
      · exact ⟨"Password too long", by simp [validatePasswordField, hbp, hgt]⟩
    have hvc : ∃ msg, validateCredentials (some ⟨em, some p⟩) = .error msg := by
      rcases hpw with ⟨msg, hmsg⟩
      cases hve : validateEmailField em with
      | error e2 =>
        refine ⟨e2, ?_⟩
        rw [validateCredentials_eq]
        simp only [Option.bind]
        rw [hve]
      | ok o =>
        refine ⟨msg, ?_⟩
        rw [validateCredentials_eq]
        simp only [Option.bind]
        rw [hve, hmsg]
    rcases hvc with ⟨msg, hmsg⟩
    exact ⟨by simp [startContainers, hmsg], ⟨msg, by simp [startContainers, hmsg]⟩⟩
  · intro p hlen
    have hbp : (p == "") = false := by
      refine beq_eq_false_iff_ne.mpr ?_
      intro he
      rw [he] at hlen
      simp at hlen
    have h128 : ¬ p.length > 128 := by omega
    have h8 : ¬ p.length < 8 := by omega
    have hvp : validatePasswordField (some p) = .ok (some p) := by
      simp [validatePasswordField, hbp, h128, h8]
    rw [validateCredentials_eq]
    simp only [Option.bind, validateEmailField]
    rw [hvp]

/-- C5 witness: concrete rejected email and short password (never spawned),
and a concrete accepted 8-character password. -/
theorem C5_amended_witness :
    (startContainers true (some ⟨some "not-an-email", none⟩) (.closed (some 0) "")).spawned
        = false ∧
    (startContainers true (some ⟨none, some "1234567"⟩) (.closed (some 0) "")).spawned
        = false ∧
    validateCredentials (some ⟨none, some "abcd!efg"⟩) = .ok ⟨none, some "abcd!efg"⟩ :=
  ⟨(C5_amended_credential_validation.1 "not-an-email" none (.closed (some 0) "")
      (by decide) (Or.inr (by decide))).1,
    (C5_amended_credential_validation.2.1 none "1234567" (.closed (some 0) "")
      (by decide) (Or.inl (by decide))).1,
    C5_amended_credential_validation.2.2 "abcd!efg" (by decide)⟩

/-! ### C6 — status computation and parse-failure behavior -/

/-- C6 counterexample: every ps output line fails to parse, `containersUp`
is false, but no error detail is attached — the catch that sets the error
field only covers the subprocess itself, not per-line JSON. The claim that
total parse failure attaches an error detail fails at this input. -/
theorem C6_counterexample :
    (((splitNewlines "not json").filter (fun l => l != "")).all
        (fun l => (w6c.jsonParse l).isNone)) = true ∧
    parsedContainers "not json" w6c.jsonParse = [] ∧
    (getDockerStatus w6c).containersUp = false ∧
    (getDockerStatus w6c).error = none := by
  decide

/-- C6 amended: with the daemon installed and running and a non-empty ps
output, `containersUp` holds exactly when at least 3 parsed records report
state "running" and every parsed record does; `healthy` additionally needs
every record to carry no health field or a passing one; unparseable lines
are skipped and no error detail is attached (the error field is reserved
for failures of the status subprocess itself). -/
theorem C6_amended_status_parsing (w : StatusWorld) (psOutput : String)
    (hinst : w.installed = true) (hrun : w.running = true)
    (hps : w.psExec = .ok psOutput) (hne : psOutput ≠ "") :
    ((getDockerStatus w).containersUp = true ↔
      (3 ≤ ((parsedContainers psOutput w.jsonParse).filter stateIsRunning).length ∧
        ∀ c ∈ parsedContainers psOutput w.jsonParse, stateIsRunning c = true)) ∧
    ((getDockerStatus w).healthy = true ↔
      ((getDockerStatus w).containersUp = true ∧
        ∀ c ∈ parsedContainers psOutput w.jsonParse, healthOk c = true)) ∧
    (getDockerStatus w).error = none := by
  have hbe : (psOutput == "") = false := beq_eq_false_iff_ne.mpr hne
  have hgds : getDockerStatus w =
      ⟨true, true,
        decide ((parsedContainers psOutput w.jsonParse).length ≥ 3) &&
          (parsedContainers psOutput w.jsonParse).all stateIsRunning,
        (decide ((parsedContainers psOutput w.jsonParse).length ≥ 3) &&
          (parsedContainers psOutput w.jsonParse).all stateIsRunning) &&
          (parsedContainers psOutput w.jsonParse).all healthOk, none⟩ := by
    simp [getDockerStatus, hinst, hrun, hps, hbe]
  rw [hgds]
  refine ⟨length_all_filter_iff _ _, ?_, rfl⟩
  constructor
  · intro h
    have h1 := (Bool.and_eq_true _ _).mp h
    exact ⟨h1.1, List.all_eq_true.mp h1.2⟩
  · rintro ⟨h1, h2⟩
    exact (Bool.and_eq_true _ _).mpr ⟨h1, List.all_eq_true.mpr h2⟩

/-- C6 witness: three running records make `containersUp` true with no
error detail. -/
theorem C6_amended_witness :
    (getDockerStatus wHealthy).containersUp = true ∧
    (getDockerStatus wHealthy).error = none := by
  have h := C6_amended_status_parsing wHealthy "a\nb\nc" rfl rfl rfl (by decide)
  exact ⟨h.1.mpr ⟨by decide, by decide⟩, h.2.2⟩

/-! ### C7 — idempotent teardown -/

/-- C7 counterexample: the shutdown timer firing also rejects the stop
promise, with neither a non-zero numeric exit code nor a spawn error — the
claim that those are the only rejection causes fails at this input. -/
theorem C7_counterexample :
    stopContainers true DownEvent.timedOut =
      .error "Container shutdown timed out. Try force-stopping Docker containers manually." :=
  rfl

/-- C7 amended: with the compose file present, `stopContainers` resolves
exactly when the subprocess exits with code 0 or a null (signal) exit code;
every other first event — non-zero numeric exit code, spawn error, or the
120 s shutdown timeout — rejects. Stopping an already-stopped stack (a clean
exit) is therefore not an error. -/
theorem C7_amended_idempotent_stop (ev : DownEvent) :
    stopContainers true ev = .ok () ↔ (ev = .closed (some 0) ∨ ev = .closed none) := by
  cases ev with
  | timedOut => simp [stopContainers]
  | errored m => simp [stopContainers]
  | closed code =>
    cases code with
    | none => simp [stopContainers]
    | some c =>
      by_cases hc : c = 0
      · subst hc
        simp [stopContainers]
      · simp [stopContainers, hc]

/-- C7 witness: a null (signal) exit code resolves successfully. -/
theorem C7_amended_witness : stopContainers true (DownEvent.closed none) = .ok () :=
  (C7_amended_idempotent_stop (DownEvent.closed none)).mpr (Or.inr rfl)

/-! ### C8 — graceful port freeing -/

/-- C8: `killPortProcesses` only ever attempts the SIGTERM signal (never
SIGKILL), waits the fixed 1500 ms settle interval, and its promise rejects
with the still-in-use error exactly when some given port is still bound at
the re-probe after the wait. -/
theorem C8_graceful_port_free (w : KillWorld) (ports : List Nat) :
    (∀ sig ∈ (killPortProcesses w ports).signals, sig.2 = "SIGTERM") ∧
    (killPortProcesses w ports).waitedMs = 1500 ∧
    ((killPortProcesses w ports).result = .ok () ↔
      ∀ p ∈ ports, w.availableAfterWait p = true) := by
  refine ⟨?_, rfl, ?_⟩
  · intro sig hsig
    have hsig2 : sig ∈ killSignals w ports := hsig
    rcases List.mem_flatMap.mp hsig2 with ⟨port, hport, hmem⟩
    cases hl : w.lsofListen port with
    | none =>
      rw [hl] at hmem
      simp at hmem
    | some out =>
      rw [hl] at hmem
      rcases List.mem_map.mp hmem with ⟨pid, hpid, heq⟩
      rw [← heq]
  · cases hf : ports.find? (fun port => !w.availableAfterWait port) with
    | some port =>
      refine iff_of_false (by simp [killPortProcesses, hf]) ?_
      intro hall
      have hp := List.find?_some hf
      have hmem := List.mem_of_find?_eq_some hf
      have hav := hall port hmem
      simp [hav] at hp
    | none =>
      refine iff_of_true (by simp [killPortProcesses, hf]) ?_
      intro p hp
      have hnp := List.find?_eq_none.mp hf p hp
      simpa using hnp

/-- C8 witness: pid 42 on port 3000 is signalled, both ports re-probe free,
the call succeeds after the 1500 ms wait. -/
theorem C8_graceful_port_free_witness :
    (killPortProcesses w8w [3000, 5433]).result = .ok () ∧
    (killPortProcesses w8w [3000, 5433]).waitedMs = 1500 :=
  ⟨(C8_graceful_port_free w8w [3000, 5433]).2.2.mpr (by decide),
    (C8_graceful_port_free w8w [3000, 5433]).2.1⟩

/-! ### C9 — implication chain of the status record -/

/-- C9: every status record produced by `getDockerStatus` satisfies
healthy implies containersUp implies running implies installed. -/
theorem C9_status_implication_chain (w : StatusWorld) :
    ((getDockerStatus w).healthy = true → (getDockerStatus w).containersUp = true) ∧
    ((getDockerStatus w).containersUp = true → (getDockerStatus w).running = true) ∧
    ((getDockerStatus w).running = true → (getDockerStatus w).installed = true) := by
  rcases w with ⟨i, r, pe, jp⟩
  cases i with
  | false =>
    exact ⟨fun h => by simp [getDockerStatus] at h,
      fun h => by simp [getDockerStatus] at h,
      fun h => by simp [getDockerStatus] at h⟩
  | true =>
    cases r with
    | false =>
      exact ⟨fun h => by simp [getDockerStatus] at h,
        fun h => by simp [getDockerStatus] at h,
        fun _ => by simp [getDockerStatus]⟩
    | true =>
      cases pe with
      | error e =>
        exact ⟨fun h => by simp [getDockerStatus] at h,
          fun _ => by simp [getDockerStatus],
          fun _ => by simp [getDockerStatus]⟩
      | ok out =>
        by_cases hbe : (out == "") = true
        · exact ⟨fun h => by simp [getDockerStatus, hbe] at h,
            fun _ => by simp [getDockerStatus, hbe],
            fun _ => by simp [getDockerStatus, hbe]⟩
        · have hbe2 : (out == "") = false := by
            cases hx : (out == "") with
            | false => rfl
            | true => exact absurd hx hbe
          have hgds : getDockerStatus ⟨true, true, Except.ok out, jp⟩ =
              ⟨true, true,
                decide ((parsedContainers out jp).length ≥ 3) &&
                  (parsedContainers out jp).all stateIsRunning,
                (decide ((parsedContainers out jp).length ≥ 3) &&
                  (parsedContainers out jp).all stateIsRunning) &&
                  (parsedContainers out jp).all healthOk, none⟩ := by
            simp [getDockerStatus, hbe2]
          rw [hgds]
          exact ⟨fun h => ((Bool.and_eq_true _ _).mp h).1, fun _ => rfl, fun _ => rfl⟩

/-- C9 witness: a healthy concrete status world has containersUp, running
and installed all true via the chain. -/
theorem C9_status_chain_witness :
    (getDockerStatus wHealthy).containersUp = true ∧
    (getDockerStatus wHealthy).running = true ∧
    (getDockerStatus wHealthy).installed = true :=
  ⟨(C9_status_implication_chain wHealthy).1 (by decide),
    (C9_status_implication_chain wHealthy).2.1 (by decide),
    (C9_status_implication_chain wHealthy).2.2 (by decide)⟩

/-! ### C10 — empty credential fields are skipped -/

/-- C10: an absent field and an empty-string field are treated identically
by `validateCredentials` (the block is skipped, no error), and with both
fields empty `startContainers` spawns with neither ADMIN_EMAIL nor
ADMIN_PASSWORD set in the subprocess environment. -/
theorem C10_empty_fields_skipped (em pw : Option String) (ev : UpEvent) :
    validateCredentials (some ⟨some "", pw⟩) = validateCredentials (some ⟨none, pw⟩) ∧
    validateCredentials (some ⟨em, some ""⟩) = validateCredentials (some ⟨em, none⟩) ∧
    validateCredentials (some ⟨none, none⟩) = .ok ⟨none, none⟩ ∧
    (startContainers true (some ⟨some "", some ""⟩) ev).envAdminEmail = none ∧
    (startContainers true (some ⟨some "", some ""⟩) ev).envAdminPassword = none ∧
    (startContainers true (some ⟨some "", some ""⟩) ev).spawned = true :=
  ⟨rfl, rfl, rfl, rfl, rfl, rfl⟩

end TrhDesktop
